import Mathlib

/-!
Verification of the OpenAPI-to-MCP converter against its specification.

The embedding covers, from `backend` sources:
  - the data model (`schemas.py`): HTTP methods, endpoints, parameters, MCP tools;
  - the tool generator (`tool_generator.py`): `generate_tools`, `_endpoint_to_tool`,
    `_path_to_tool_name`, `_build_input_schema`;
  - the generated MCP server (`server_generator.py` code template): the per-tool
    handler (path substitution, HTTP method dispatch, result formatting) and the
    `call_tool` dispatch chain;
  - the documented argument validator from `docs/GUIDE.md`.

The composite-tool orchestration engine (`backend/templates/generic_server.py`,
`_handle_composite_tool`) is not present in the repository sources, only its
documentation; the corresponding definitions below are modelled from the spec
and are marked as such.
-/

namespace OpenApiToMcp

/-- HTTP method enumeration, from `backend/app/models/schemas.py` `HTTPMethod`. -/
inductive HTTPMethod where
  | get
  | post
  | put
  | delete
  | patch
deriving DecidableEq, Repr

/-- The string value of an `HTTPMethod` member (`HTTPMethod.GET = "get"`, etc.),
from `schemas.py`. -/
def HTTPMethod.value : HTTPMethod → String
  | .get => "get"
  | .post => "post"
  | .put => "put"
  | .delete => "delete"
  | .patch => "patch"

/-- A JSON value, used for JSON-schema fragments carried by endpoints and tools.
Objects are insertion-ordered key/value lists, matching Python dicts. -/
inductive Json where
  | str (s : String)
  | num (n : Int)
  | jbool (b : Bool)
  | jnull
  | arr (elems : List Json)
  | obj (fields : List (String × Json))

/-- Python dict assignment `d[k] = v`: overwrite in place if the key exists,
otherwise append (Python dicts preserve insertion order). -/
def dictSet (d : List (String × Json)) (k : String) (v : Json) : List (String × Json) :=
  if d.any (fun p => p.1 = k) then
    d.map (fun p => if p.1 = k then (k, v) else p)
  else
    d ++ [(k, v)]

/-- Python `d.update(upd)`: assign every key of `upd` into `d` in order. -/
def dictUpdate (d : List (String × Json)) (upd : List (String × Json)) :
    List (String × Json) :=
  upd.foldl (fun acc kv => dictSet acc kv.1 kv.2) d

/-- Python `d.get(k)` on a JSON object. -/
def dictGet (d : List (String × Json)) (k : String) : Option Json :=
  (d.find? (fun p => p.1 = k)).map (fun p => p.2)

/-- Python `d.get(k, \x7b\x7d)` where the value is expected to be an object:
returns the object fields, or the empty object when absent. -/
def jsonGetObj (d : List (String × Json)) (k : String) : List (String × Json) :=
  match dictGet d k with
  | some (Json.obj fields) => fields
  | _ => []

/-- Python `d.get(k, [])` where the value is expected to be a list of strings
(a JSON-schema `required` list). -/
def jsonGetStrList (d : List (String × Json)) (k : String) : List String :=
  match dictGet d k with
  | some (Json.arr elems) =>
      elems.filterMap (fun j => match j with | Json.str s => some s | _ => none)
  | _ => []

/-- An argument value supplied to a tool call. Python `str()` coercion is
`PyVal.pyStr`. -/
inductive PyVal where
  | str (s : String)
  | int (n : Int)
  | boolean (b : Bool)
deriving DecidableEq, Repr

/-- Python `str()` of an argument value. -/
def PyVal.pyStr : PyVal → String
  | .str s => s
  | .int n => toString n
  | .boolean b => if b then "True" else "False"

/-- An endpoint parameter, from `schemas.py` `Parameter`. -/
structure Parameter where
  name : String
  in_ : String
  description : Option String
  required : Bool
  schema_ : List (String × Json)

/-- An API endpoint, from `schemas.py` `Endpoint`. -/
structure Endpoint where
  path : String
  method : HTTPMethod
  operation_id : Option String
  summary : Option String
  description : Option String
  parameters : List Parameter
  request_body : Option (List (String × Json))
  responses : List (String × Json)
  needs_enrichment : Bool
  enriched_description : Option String
  business_context : Option String

/-- The endpoint mapping stored on a generated tool, from `schemas.py`
`MCPTool.endpoint_mapping` (a string-to-string dict with `path` and `method`). -/
structure EndpointMapping where
  path : String
  method : String
deriving DecidableEq, Repr

/-- A generated MCP tool, from `schemas.py` `MCPTool`. -/
structure MCPTool where
  name : String
  description : String
  input_schema : List (String × Json)
  endpoint_mapping : EndpointMapping

/-- The declarative tool model, from `schemas.py` `ToolModel`. -/
structure ToolModel where
  api_name : String
  base_url : String
  tools : List MCPTool

/-- Python truthiness chain `a or b` on an optional string: `none` and the
empty string are falsy. -/
def orTruthy (a : Option String) (b : String) : String :=
  match a with
  | some s => if s = "" then b else s
  | none => b

/-- Whether `pat` is a prefix of the character list. -/
def charStartsWith : List Char → List Char → Bool
  | [], _ => true
  | _ :: _, [] => false
  | p :: ps, c :: cs => p == c && charStartsWith ps cs

/-- Fuel-driven replace-all on character lists; the fuel is the length of the
scanned list, and each step consumes at least one character. -/
def charReplaceFuel (pat rep : List Char) : Nat → List Char → List Char
  | 0, s => s
  | _ + 1, [] => []
  | fuel + 1, c :: cs =>
      if charStartsWith pat (c :: cs) && !pat.isEmpty then
        rep ++ charReplaceFuel pat rep fuel ((c :: cs).drop pat.length)
      else
        c :: charReplaceFuel pat rep fuel cs

/-- Python `s.replace(pat, rep)`: replace every non-overlapping occurrence of
`pat` left to right (for the nonempty patterns used here). -/
def strReplace (s pat rep : String) : String :=
  String.mk (charReplaceFuel pat.data rep.data s.data.length s.data)

/-- Fuel-driven split on character lists. -/
def charSplitOnFuel (sep : List Char) : Nat → List Char → List Char → List (List Char)
  | 0, acc, s => [acc.reverse ++ s]
  | _ + 1, acc, [] => [acc.reverse]
  | fuel + 1, acc, c :: cs =>
      if charStartsWith sep (c :: cs) && !sep.isEmpty then
        acc.reverse :: charSplitOnFuel sep fuel [] ((c :: cs).drop sep.length)
      else
        charSplitOnFuel sep fuel (c :: acc) cs

/-- Python `s.split(sep)` for a nonempty separator: split on every
non-overlapping occurrence; the empty string yields one empty piece. -/
def strSplitOn (s sep : String) : List String :=
  (charSplitOnFuel sep.data s.data.length [] s.data).map String.mk

/-- Python `s.lstrip(chars)` restricted to a character predicate. -/
def strDropWhile (p : Char → Bool) (s : String) : String :=
  String.mk (s.data.dropWhile p)

/-- Python `s.upper()`. -/
def strToUpper (s : String) : String :=
  String.mk (s.data.map Char.toUpper)

/-- ToolGenerator._path_to_tool_name from `tool_generator.py`: strip leading
slashes, drop brace characters, split on `/`, and join the method value with
the first path segment. -/
def path_to_tool_name (path : String) (method : HTTPMethod) : String :=
  let cleanPath := strReplace (strReplace (strDropWhile (fun c => c == '/') path) "\x7b" "") "\x7d" ""
  let parts := strSplitOn cleanPath "/"
  let resource := match parts with
    | [] => "resource"
    | p :: _ => p
  method.value ++ "_" ++ resource

/-- The first path segment as computed inside `_path_to_tool_name` (leading
slashes stripped, braces dropped, head of the `/`-split). -/
def toolFirstSegment (path : String) : String :=
  match strSplitOn (strReplace (strReplace (strDropWhile (fun c => c == '/') path) "\x7b" "") "\x7d" "") "/" with
  | [] => "resource"
  | p :: _ => p

/-- The schema dict of one parameter as built by `_build_input_schema`: a copy of the
parameter schema (or `\x7b"type": "string"\x7d` when empty), plus the
description when truthy. -/
def paramSchemaOf (param : Parameter) : List (String × Json) :=
  let base := if param.schema_.isEmpty then [("type", Json.str "string")] else param.schema_
  match param.description with
  | some d => if d = "" then base else dictSet base "description" (Json.str d)
  | none => base

/-- The fold step of `_build_input_schema` over endpoint parameters:
accumulates the `properties` dict and the `required` list. -/
def addParam (acc : (List (String × Json)) × List String) (param : Parameter) :
    (List (String × Json)) × List String :=
  (dictSet acc.1 param.name (Json.obj (paramSchemaOf param)),
   if param.required then acc.2 ++ [param.name] else acc.2)

/-- ToolGenerator._build_input_schema from `tool_generator.py`: collect path and
query parameters, then flatten the JSON request-body schema properties into the
top level and extend the required list. -/
def build_input_schema (endpoint : Endpoint) : List (String × Json) :=
  let fromParams := endpoint.parameters.foldl addParam ([], [])
  let withBody :=
    match endpoint.request_body with
    | none => fromParams
    | some rb =>
        if rb.isEmpty then fromParams
        else
          let content := jsonGetObj rb "content"
          let jsonContent := jsonGetObj content "application/json"
          let schema := jsonGetObj jsonContent "schema"
          if schema.isEmpty then fromParams
          else
            (dictUpdate fromParams.1 (jsonGetObj schema "properties"),
             fromParams.2 ++ jsonGetStrList schema "required")
  [("type", Json.str "object"),
   ("properties", Json.obj withBody.1),
   ("required", Json.arr (withBody.2.map Json.str))]

/-- ToolGenerator._endpoint_to_tool from `tool_generator.py`: tool name from
`operation_id` or the path, description from the enrichment chain, input schema
from `_build_input_schema`, endpoint mapping from path and method value. -/
def endpoint_to_tool (endpoint : Endpoint) : MCPTool :=
  let toolName := orTruthy endpoint.operation_id (path_to_tool_name endpoint.path endpoint.method)
  let baseDescription :=
    orTruthy endpoint.enriched_description (orTruthy endpoint.description
      (orTruthy endpoint.summary (strToUpper endpoint.method.value ++ " " ++ endpoint.path)))
  let description :=
    match endpoint.business_context with
    | some bc =>
        if bc = "" then baseDescription
        else baseDescription ++ "\n\nBusiness Context: " ++ bc
    | none => baseDescription
  { name := toolName,
    description := description,
    input_schema := build_input_schema endpoint,
    endpoint_mapping := { path := endpoint.path, method := endpoint.method.value } }

/-- ToolGenerator.generate_tools from `tool_generator.py`: every endpoint is
converted (the `if tool:` guard is always truthy) and appended in order; there
is no uniqueness check on tool names. -/
def generate_tools (endpoints : List Endpoint) (apiName : String) (baseUrl : String) : ToolModel :=
  { api_name := apiName, base_url := baseUrl, tools := endpoints.map endpoint_to_tool }

/-- An outbound HTTP request as issued by the generated tool handler: httpx
method, URL, optional query parameters (`params=`) and optional JSON body
(`json=`). -/
structure HttpRequest where
  method : String
  url : String
  queryParams : Option (List (String × PyVal))
  jsonBody : Option (List (String × PyVal))
deriving DecidableEq, Repr

/-- A normalized HTTP response: status code and body text. -/
structure HttpResponse where
  status_code : Nat
  text : String
deriving DecidableEq, Repr

/-- The path-substitution loop of the generated handler template in
`server_generator.py`: for each argument in order, replace every occurrence of
`\x7bkey\x7d` in the path by the string-coerced value. Keys are not removed
from the argument map, and unmatched placeholders are left in place. -/
def substPath (path : String) (arguments : List (String × PyVal)) : String :=
  arguments.foldl (fun p kv => strReplace p ("\x7b" ++ kv.1 ++ "\x7d") kv.2.pyStr) path

/-- Issue one request and format the result as the template does:
`f"Status: \x7bresponse.status_code\x7d\n\n\x7bresponse.text\x7d"`. -/
def handlerStep (req : HttpRequest) (respond : HttpRequest → HttpResponse) :
    List HttpRequest × String :=
  ([req], "Status: " ++ toString (respond req).status_code ++ "\n\n" ++ (respond req).text)

/-- The generated per-tool handler from the `server_generator.py` code template
(`async def \x7btool.name\x7d_handler`): substitute path parameters, then
dispatch on the upper-cased method. GET passes the full argument map as query
parameters; POST and PUT pass it as a JSON body; DELETE passes neither; any
other method issues no request and returns an unsupported-method message.
Returns the list of issued requests paired with the returned text content. -/
def tool_handler (baseUrl : String) (mapping : EndpointMapping)
    (arguments : List (String × PyVal)) (respond : HttpRequest → HttpResponse) :
    List HttpRequest × String :=
  if strToUpper mapping.method = "GET" then
    handlerStep
      { method := "GET", url := baseUrl ++ substPath mapping.path arguments,
        queryParams := some arguments, jsonBody := none } respond
  else if strToUpper mapping.method = "POST" then
    handlerStep
      { method := "POST", url := baseUrl ++ substPath mapping.path arguments,
        queryParams := none, jsonBody := some arguments } respond
  else if strToUpper mapping.method = "PUT" then
    handlerStep
      { method := "PUT", url := baseUrl ++ substPath mapping.path arguments,
        queryParams := none, jsonBody := some arguments } respond
  else if strToUpper mapping.method = "DELETE" then
    handlerStep
      { method := "DELETE", url := baseUrl ++ substPath mapping.path arguments,
        queryParams := none, jsonBody := none } respond
  else
    ([], "Unsupported method: " ++ strToUpper mapping.method)

/-- Number of outbound requests the handler template issues for a given method
string: one for GET, POST, PUT and DELETE, zero otherwise. -/
def expectedRequestCount (method : String) : Nat :=
  if strToUpper method = "GET" then 1
  else if strToUpper method = "POST" then 1
  else if strToUpper method = "PUT" then 1
  else if strToUpper method = "DELETE" then 1
  else 0

/-- The module-level binding of `\x7bname\x7d_handler` in the generated server:
the template emits one `async def \x7btool.name\x7d_handler` per tool in order,
and a later definition with the same name rebinds it, so the handler bound to a
name is the LAST tool carrying that name (`none` when no tool does). -/
def handlerBinding (tools : List MCPTool) (name : String) : Option MCPTool :=
  tools.foldl (fun acc t => if t.name = name then some t else acc) none

/-- The `call_tool` dispatch of the generated server template: the if-chain
fires exactly when some tool carries the requested name — which is exactly when
a module-level handler is bound to it — and the branch body calls
`\x7bname\x7d_handler`, which resolves to the last tool bound to that name;
no match raises `ValueError(f"Unknown tool: \x7bname\x7d")`. -/
def call_tool (tools : List MCPTool) (name : String) : Except String MCPTool :=
  match handlerBinding tools name with
  | some t => Except.ok t
  | none => Except.error ("Unknown tool: " ++ name)

/-- The `_validate_arguments` helper shown in `docs/GUIDE.md` as an optional
customization: required-field presence check of an argument map against a
`required` list. -/
def validate_arguments (required : List String) (arguments : List (String × PyVal)) : Bool :=
  required.all (fun f => arguments.any (fun kv => kv.1 = f))

/-- The `required` list of a tool input schema, as read from the schema
object. -/
def schemaRequired (schema : List (String × Json)) : List String :=
  jsonGetStrList schema "required"

/-- Modelled from the spec: `backend/templates/generic_server.py` is not among
the repository sources, so the composite-tool descriptor is taken from the
persisted form given in the spec (name, description, use-case description, orchestration
logic, input schema, advisory endpoint mappings). -/
structure EndpointPurpose where
  path : String
  method : String
  purpose : String
deriving DecidableEq, Repr

/-- Modelled from the spec: the composite-tool descriptor consumed by the
orchestration engine of `generic_server.py`, which is absent from the
repository sources. -/
structure CompositeToolDescriptor where
  name : String
  description : String
  use_case_description : String
  orchestration_logic : String
  input_schema : List (String × Json)
  endpoint_mappings : List EndpointPurpose

/-- Modelled from the spec: one tool invocation requested by the reasoning
model, with a call identifier correlating the request and its result. -/
structure ToolCall where
  id : String
  name : String
  arguments : List (String × PyVal)
deriving DecidableEq, Repr

/-- Modelled from the spec: a turn of the orchestration transcript exchanged
with the reasoning model. -/
inductive Turn where
  | system (content : String)
  | user (content : String)
  | assistantText (content : String)
  | assistantToolUse (call : ToolCall)
  | toolResult (callId : String) (content : String) (isError : Bool)
deriving DecidableEq, Repr

/-- Modelled from the spec: a reasoning-model response is either a final
answer, a batch of requested tool calls, or a reasoning-service failure. -/
inductive ModelResponse where
  | finalAnswer (text : String)
  | toolRequests (calls : List ToolCall)
  | serviceError (message : String)

/-- Modelled from the spec: the terminal state of an orchestration run
(`DONE`, `LIMIT_EXCEEDED` or `FAILED`). -/
inductive Terminal where
  | done (answer : String)
  | limitExceeded
  | failed (message : String)
deriving DecidableEq, Repr

/-- Modelled from the spec: the execution record of one composite-tool call
(`OrchestrationRun` at termination). -/
structure RunResult where
  terminal : Terminal
  iteration_count : Nat
  transcript : List Turn
deriving DecidableEq, Repr

/-- Modelled from the spec: the inputs of the orchestration engine of
`generic_server.py` (absent from the sources) — the tool registry, base URL,
iteration budget, composite descriptor, caller arguments, the HTTP transport,
and the reasoning model as a black-box function from transcript to
response. -/
structure EngineConfig where
  registry : List MCPTool
  baseUrl : String
  maxIterations : Nat
  composite : CompositeToolDescriptor
  inputArguments : List (String × PyVal)
  respond : HttpRequest → HttpResponse
  model : List Turn → ModelResponse

/-- Modelled from the spec: executing one requested tool call. The tool is
looked up by name through the same dispatch as the generated server (which
resolves a duplicated name to its last handler definition); an unknown name
yields an error tool-result turn instead of aborting the run, and a found tool
is executed through the embedded handler with its result text attached to the
call identifier. -/
def execToolCall (cfg : EngineConfig) (call : ToolCall) : Turn :=
  match call_tool cfg.registry call.name with
  | Except.error msg => Turn.toolResult call.id ("Error: " ++ msg) true
  | Except.ok tool =>
      Turn.toolResult call.id
        (tool_handler cfg.baseUrl tool.endpoint_mapping call.arguments cfg.respond).2 false

/-- Modelled from the spec: the outcome of the `TOOL_EXECUTING` state — either
the iteration limit was hit mid-batch, or every requested call was executed
and control returns to `REASONING`. -/
inductive BatchOutcome where
  | limitHit (count : Nat) (transcript : List Turn)
  | toReasoning (count : Nat) (transcript : List Turn)

/-- Modelled from the spec: the `TOOL_EXECUTING` state of
`_handle_composite_tool`. For each requested tool invocation in model order,
the iteration counter is incremented and checked against the configured
maximum: once the counter reaches the maximum the run aborts to
`LIMIT_EXCEEDED` immediately, regardless of how many calls the batch still
holds (this per-invocation reading is the one consistent with the invariant
that the counter never exceeds the maximum and that a run at the maximum
terminates in `LIMIT_EXCEEDED`). Otherwise the call executes and its request
and result turns are appended to the transcript. -/
def execBatch (cfg : EngineConfig) : Nat → List Turn → List ToolCall → BatchOutcome
  | count, transcript, [] => BatchOutcome.toReasoning count transcript
  | count, transcript, call :: rest =>
      if cfg.maxIterations ≤ count + 1 then
        BatchOutcome.limitHit (count + 1) transcript
      else
        execBatch cfg (count + 1)
          (transcript ++ [Turn.assistantToolUse call, execToolCall cfg call]) rest

/-- Modelled from the spec: the caller arguments rendered into the initial
user turn. -/
def renderArguments : List (String × PyVal) → String
  | [] => ""
  | [kv] => kv.1 ++ "=" ++ kv.2.pyStr
  | kv :: rest => kv.1 ++ "=" ++ kv.2.pyStr ++ ", " ++ renderArguments rest

/-- Modelled from the spec: the `INIT` state — a system instruction carrying
the use-case description and orchestration logic, and a user turn carrying the
caller-supplied input arguments. -/
def initTranscript (cfg : EngineConfig) : List Turn :=
  [Turn.system ("Execute this workflow. Use case: " ++ cfg.composite.use_case_description
      ++ " Orchestration: " ++ cfg.composite.orchestration_logic),
   Turn.user (renderArguments cfg.inputArguments)]

/-- Modelled from the spec: the `REASONING` loop of `_handle_composite_tool`.
Each round sends the transcript to the reasoning model; a final answer
terminates in `DONE`, a reasoning-service failure terminates in `FAILED`, and
requested tool calls run through `execBatch` before looping. `fuel` bounds the
number of reasoning rounds only so the recursion is total; `none` means the
bound was reached without a terminal state. -/
def runLoop (cfg : EngineConfig) : Nat → Nat → List Turn → Option RunResult
  | 0, _, _ => none
  | fuel + 1, count, transcript =>
      match cfg.model transcript with
      | ModelResponse.finalAnswer text =>
          some { terminal := Terminal.done text, iteration_count := count,
                 transcript := transcript ++ [Turn.assistantText text] }
      | ModelResponse.serviceError msg =>
          some { terminal := Terminal.failed msg, iteration_count := count,
                 transcript := transcript }
      | ModelResponse.toolRequests calls =>
          match execBatch cfg count transcript calls with
          | BatchOutcome.limitHit c tr =>
              some { terminal := Terminal.limitExceeded, iteration_count := c, transcript := tr }
          | BatchOutcome.toReasoning c tr => runLoop cfg fuel c tr

/-- Modelled from the spec: a full orchestration run from the `INIT` state
with the iteration counter at zero. -/
def runOrchestration (cfg : EngineConfig) (fuel : Nat) : Option RunResult :=
  runLoop cfg fuel 0 (initTranscript cfg)

/-- The iteration-cap invariant of an orchestration outcome: at termination the
counter is at most the maximum, and a counter at the maximum forces the
`LIMIT_EXCEEDED` terminal state. -/
def iterationCapOK (maxIterations : Nat) : Option RunResult → Prop
  | none => True
  | some r =>
      r.iteration_count ≤ maxIterations ∧
        (r.iteration_count = maxIterations → r.terminal = Terminal.limitExceeded)

/-- Boolean check of a property over a terminated run; `false` when the fuel
bound was reached first. -/
def runHas (o : Option RunResult) (p : RunResult → Bool) : Bool :=
  match o with
  | none => false
  | some r => p r

/-- Count of tool-result turns in a transcript, used by the reasoning-model
stubs below to decide their next response. -/
def toolResultCount (transcript : List Turn) : Nat :=
  (transcript.filter (fun t => match t with | Turn.toolResult _ _ _ => true | _ => false)).length

/-- A constant HTTP transport answering 200/ok. -/
def respond200 : HttpRequest → HttpResponse :=
  fun _ => { status_code := 200, text := "ok" }

/-- A constant HTTP transport answering 500. -/
def respond500 : HttpRequest → HttpResponse :=
  fun _ => { status_code := 500, text := "Internal Server Error" }

/-- The `getCustomer` endpoint mapping of the demo scenario. -/
def getCustomerMapping : EndpointMapping :=
  { path := "/customers/\x7bid\x7d", method := "get" }

/-- A PATCH endpoint mapping hitting the unsupported branch of the generated
handler. -/
def patchMapping : EndpointMapping :=
  { path := "/customers/\x7bid\x7d", method := "patch" }

/-- The input schema of `getCustomer`, with `id` required. -/
def getCustomerInputSchema : List (String × Json) :=
  [("type", Json.str "object"),
   ("properties", Json.obj [("id", Json.obj [("type", Json.str "string")])]),
   ("required", Json.arr [Json.str "id"])]

/-- The `getCustomer` registry tool of the demo scenario. -/
def getCustomerTool : MCPTool :=
  { name := "getCustomer",
    description := "Get customer details",
    input_schema := getCustomerInputSchema,
    endpoint_mapping := getCustomerMapping }

/-- A composite-tool descriptor for the demo scenario. -/
def demoComposite : CompositeToolDescriptor :=
  { name := "get_customer_with_orders",
    description := "Get customer and their orders",
    use_case_description := "get customer then their orders",
    orchestration_logic := "1) Get customer 2) Get orders",
    input_schema := getCustomerInputSchema,
    endpoint_mappings :=
      [{ path := "/customers/\x7bid\x7d", method := "get", purpose := "fetch customer" }] }

/-- A reasoning-model stub that never stops requesting tool calls. -/
def greedyModel : List Turn → ModelResponse :=
  fun _ => ModelResponse.toolRequests
    [{ id := "loop", name := "getCustomer", arguments := [("id", PyVal.str "42")] }]

/-- Engine configuration whose model never stops requesting tools; the run
must hit the iteration cap. -/
def cfgGreedy : EngineConfig :=
  { registry := [getCustomerTool], baseUrl := "http://api", maxIterations := 20,
    composite := demoComposite, inputArguments := [("id", PyVal.str "42")],
    respond := respond200, model := greedyModel }

/-- A reasoning-model stub that first requests the nonexistent tool `fooBar`,
then the valid `getCustomer`, then answers. -/
def unknownStubModel : List Turn → ModelResponse := fun transcript =>
  if toolResultCount transcript = 0 then
    ModelResponse.toolRequests [{ id := "call_1", name := "fooBar", arguments := [] }]
  else if toolResultCount transcript = 1 then
    ModelResponse.toolRequests
      [{ id := "call_2", name := "getCustomer", arguments := [("id", PyVal.str "42")] }]
  else
    ModelResponse.finalAnswer "customer retrieved"

/-- Engine configuration for the unknown-tool scenario. -/
def cfgUnknownStub : EngineConfig :=
  { registry := [getCustomerTool], baseUrl := "http://api", maxIterations := 20,
    composite := demoComposite, inputArguments := [("id", PyVal.str "42")],
    respond := respond200, model := unknownStubModel }

/-- A reasoning-model stub that requests `getCustomer` once and then reports
on the failure it observed. -/
def errorStubModel : List Turn → ModelResponse := fun transcript =>
  if toolResultCount transcript = 0 then
    ModelResponse.toolRequests
      [{ id := "call_1", name := "getCustomer", arguments := [("id", PyVal.str "42")] }]
  else
    ModelResponse.finalAnswer "the downstream call failed with status 500"

/-- Engine configuration in which the downstream API answers 500 to every
request. -/
def cfg500 : EngineConfig :=
  { registry := [getCustomerTool], baseUrl := "http://api", maxIterations := 20,
    composite := demoComposite, inputArguments := [("id", PyVal.str "42")],
    respond := respond500, model := errorStubModel }

/-- A batch of three tool calls requested in a single reasoning turn. -/
def callsBatch : List ToolCall :=
  [{ id := "b1", name := "getCustomer", arguments := [("id", PyVal.str "1")] },
   { id := "b2", name := "getCustomer", arguments := [("id", PyVal.str "2")] },
   { id := "b3", name := "getCustomer", arguments := [("id", PyVal.str "3")] }]

/-- A batch of twenty-five tool calls requested in a single reasoning turn,
more than the whole iteration budget. -/
def bigBatch : List ToolCall :=
  (List.range 25).map
    (fun i => { id := "big" ++ toString i, name := "getCustomer",
                arguments := [("id", PyVal.str (toString i))] })

/-- The `GET /users/\x7bid\x7d` endpoint with operation id `getUser`,
described as the first of two duplicates. -/
def getUserEndpointA : Endpoint :=
  { path := "/users/\x7bid\x7d", method := HTTPMethod.get, operation_id := some "getUser",
    summary := none, description := some "first getUser tool", parameters := [],
    request_body := none, responses := [], needs_enrichment := false,
    enriched_description := none, business_context := none }

/-- A second endpoint also carrying operation id `getUser`. -/
def getUserEndpointB : Endpoint :=
  { path := "/users/by-name/\x7bname\x7d", method := HTTPMethod.get,
    operation_id := some "getUser", summary := none,
    description := some "second getUser tool", parameters := [],
    request_body := none, responses := [], needs_enrichment := false,
    enriched_description := none, business_context := none }

/-- The `GET /products` endpoint without an operation id. -/
def productsEndpoint : Endpoint :=
  { path := "/products", method := HTTPMethod.get, operation_id := none,
    summary := none, description := some "List products", parameters := [],
    request_body := none, responses := [], needs_enrichment := false,
    enriched_description := none, business_context := none }

/-- The `GET /products/\x7bid\x7d` endpoint without an operation id. -/
def productByIdEndpoint : Endpoint :=
  { path := "/products/\x7bid\x7d", method := HTTPMethod.get, operation_id := none,
    summary := none, description := some "Get one product", parameters := [],
    request_body := none, responses := [], needs_enrichment := false,
    enriched_description := none, business_context := none }

/-- Substring test through `splitOn`: a nonempty pattern occurs in `s` exactly
when splitting on it yields at least two pieces. -/
def strContains (s pat : String) : Bool :=
  2 ≤ (strSplitOn s pat).length

/-- The iteration counter carried by a batch outcome. -/
def batchCount : BatchOutcome → Nat
  | BatchOutcome.limitHit c _ => c
  | BatchOutcome.toReasoning c _ => c

/-- Whether a batch outcome aborted at the iteration limit. -/
def batchHitLimit : BatchOutcome → Bool
  | BatchOutcome.limitHit _ _ => true
  | BatchOutcome.toReasoning _ _ => false

theorem path_to_tool_name_eq (p : String) (m : HTTPMethod) :
    path_to_tool_name p m = m.value ++ "_" ++ toolFirstSegment p := rfl

theorem tool_handler_requestCount (baseUrl : String) (mapping : EndpointMapping)
    (arguments : List (String × PyVal)) (respond : HttpRequest → HttpResponse) :
    (tool_handler baseUrl mapping arguments respond).1.length =
      expectedRequestCount mapping.method := by
  unfold tool_handler expectedRequestCount handlerStep
  split_ifs <;> rfl

theorem tool_handler_statusText (baseUrl : String) (mapping : EndpointMapping)
    (arguments : List (String × PyVal)) (status : Nat) (body : String)
    (h : expectedRequestCount mapping.method = 1) :
    (tool_handler baseUrl mapping arguments
        (fun _ => { status_code := status, text := body })).2 =
      "Status: " ++ toString status ++ "\n\n" ++ body := by
  unfold expectedRequestCount at h
  unfold tool_handler handlerStep
  split_ifs at h ⊢ <;> simp_all

theorem execBatch_counts (cfg : EngineConfig) :
    ∀ (calls : List ToolCall) (count : Nat) (transcript : List Turn),
      count < cfg.maxIterations →
      (∃ tr2, execBatch cfg count transcript calls =
          BatchOutcome.toReasoning (count + calls.length) tr2 ∧
          count + calls.length < cfg.maxIterations) ∨
      (∃ tr2, execBatch cfg count transcript calls =
          BatchOutcome.limitHit cfg.maxIterations tr2 ∧
          cfg.maxIterations ≤ count + calls.length) := by
  intro calls
  induction calls with
  | nil =>
      intro count transcript h
      left
      exact ⟨transcript, by simp [execBatch], by simpa using h⟩
  | cons call rest ih =>
      intro count transcript h
      by_cases hle : cfg.maxIterations ≤ count + 1
      · right
        refine ⟨transcript, ?_, ?_⟩
        · have heq : count + 1 = cfg.maxIterations := by omega
          rw [show execBatch cfg count transcript (call :: rest) =
              (if cfg.maxIterations ≤ count + 1 then
                BatchOutcome.limitHit (count + 1) transcript
              else execBatch cfg (count + 1)
                (transcript ++ [Turn.assistantToolUse call, execToolCall cfg call]) rest)
            from rfl, if_pos hle, heq]
        · simp only [List.length_cons]
          omega
      · have h1 : count + 1 < cfg.maxIterations := by omega
        have step : execBatch cfg count transcript (call :: rest) =
            execBatch cfg (count + 1)
              (transcript ++ [Turn.assistantToolUse call, execToolCall cfg call]) rest := by
          simp only [execBatch, if_neg hle]
        rcases ih (count + 1)
            (transcript ++ [Turn.assistantToolUse call, execToolCall cfg call]) h1 with
          ⟨tr2, heq, hlt⟩ | ⟨tr2, heq, hge⟩
        · left
          refine ⟨tr2, ?_, ?_⟩
          · rw [step, heq]
            have : count + 1 + rest.length = count + (call :: rest).length := by
              simp only [List.length_cons]
              omega
            rw [this]
          · simp only [List.length_cons]
            omega
        · right
          refine ⟨tr2, ?_, ?_⟩
          · rw [step, heq]
          · simp only [List.length_cons]
            omega

theorem runLoop_cap (cfg : EngineConfig) :
    ∀ (fuel count : Nat) (transcript : List Turn),
      count < cfg.maxIterations →
      iterationCapOK cfg.maxIterations (runLoop cfg fuel count transcript) := by
  intro fuel
  induction fuel with
  | zero =>
      intro count transcript h
      simp [runLoop, iterationCapOK]
  | succ fuel ih =>
      intro count transcript h
      cases hm : cfg.model transcript with
      | finalAnswer text =>
          have hv : runLoop cfg (fuel + 1) count transcript =
              some { terminal := Terminal.done text, iteration_count := count,
                     transcript := transcript ++ [Turn.assistantText text] } := by
            simp only [runLoop, hm]
          rw [hv]
          exact ⟨Nat.le_of_lt h, fun he => absurd he (Nat.ne_of_lt h)⟩
      | serviceError msg =>
          have hv : runLoop cfg (fuel + 1) count transcript =
              some { terminal := Terminal.failed msg, iteration_count := count,
                     transcript := transcript } := by
            simp only [runLoop, hm]
          rw [hv]
          exact ⟨Nat.le_of_lt h, fun he => absurd he (Nat.ne_of_lt h)⟩
      | toolRequests calls =>
          rcases execBatch_counts cfg calls count transcript h with
            ⟨tr2, heq, hlt⟩ | ⟨tr2, heq, hge⟩
          · have hv : runLoop cfg (fuel + 1) count transcript =
                runLoop cfg fuel (count + calls.length) tr2 := by
              simp only [runLoop, hm, heq]
            rw [hv]
            exact ih _ _ hlt
          · have hv : runLoop cfg (fuel + 1) count transcript =
                some { terminal := Terminal.limitExceeded,
                       iteration_count := cfg.maxIterations, transcript := tr2 } := by
              simp only [runLoop, hm, heq]
            rw [hv]
            exact ⟨Nat.le_refl _, fun _ => rfl⟩

theorem runLoop_no_failed (cfg : EngineConfig)
    (hm : ∀ (transcript : List Turn) (msg : String),
        cfg.model transcript ≠ ModelResponse.serviceError msg) :
    ∀ (fuel count : Nat) (transcript : List Turn) (r : RunResult),
      runLoop cfg fuel count transcript = some r →
      ∀ msg, r.terminal ≠ Terminal.failed msg := by
  intro fuel
  induction fuel with
  | zero =>
      intro count transcript r hr
      simp [runLoop] at hr
  | succ fuel ih =>
      intro count transcript r hr msg
      cases hmr : cfg.model transcript with
      | finalAnswer text =>
          have hv : runLoop cfg (fuel + 1) count transcript =
              some { terminal := Terminal.done text, iteration_count := count,
                     transcript := transcript ++ [Turn.assistantText text] } := by
            simp only [runLoop, hmr]
          rw [hv] at hr
          simp only [Option.some.injEq] at hr
          rw [← hr]
          simp
      | serviceError m =>
          exact absurd hmr (hm transcript m)
      | toolRequests calls =>
          cases hb : execBatch cfg count transcript calls with
          | limitHit c tr =>
              have hv : runLoop cfg (fuel + 1) count transcript =
                  some { terminal := Terminal.limitExceeded, iteration_count := c,
                         transcript := tr } := by
                simp only [runLoop, hmr, hb]
              rw [hv] at hr
              simp only [Option.some.injEq] at hr
              rw [← hr]
              simp
          | toReasoning c tr =>
              have hv : runLoop cfg (fuel + 1) count transcript =
                  runLoop cfg fuel c tr := by
                simp only [runLoop, hmr, hb]
              rw [hv] at hr
              exact ih c tr r hr msg

/-- C1: for every orchestration run with the configured maximum of 20, the
iteration count at termination is at most 20, and if it equals 20 the terminal
state is `LIMIT_EXCEEDED`, never `DONE`. -/
theorem iteration_cap_invariant (cfg : EngineConfig) (fuel : Nat)
    (hmax : cfg.maxIterations = 20) :
    iterationCapOK 20 (runOrchestration cfg fuel) := by
  have h0 : (0 : Nat) < cfg.maxIterations := by omega
  have hcap := runLoop_cap cfg fuel 0 (initTranscript cfg) h0
  rw [hmax] at hcap
  exact hcap

/-- C1 witness: a reasoning-model stub that never stops requesting tool calls
terminates with `LIMIT_EXCEEDED` at exactly 20 iterations, and the cap
invariant holds for that run. -/
theorem iteration_cap_invariant_witness :
    runHas (runOrchestration cfgGreedy 25)
      (fun r => decide (r.terminal = Terminal.limitExceeded) &&
        decide (r.iteration_count = 20)) = true ∧
    iterationCapOK 20 (runOrchestration cfgGreedy 25) :=
  ⟨by decide, iteration_cap_invariant cfgGreedy 25 rfl⟩

/-- C2: the iteration counter is incremented and the limit check is applied
per individual tool invocation, not per reasoning turn: a batch of N requested
calls that completes raises the counter by exactly N, and a batch that would
push the counter past the configured maximum aborts at exactly the maximum,
so a single reasoning turn cannot bypass the cap by batching many calls. -/
theorem per_invocation_increment (cfg : EngineConfig) (count : Nat)
    (transcript : List Turn) (calls : List ToolCall)
    (h : count < cfg.maxIterations) :
    (batchHitLimit (execBatch cfg count transcript calls) = false →
      batchCount (execBatch cfg count transcript calls) = count + calls.length ∧
      count + calls.length < cfg.maxIterations) ∧
    (batchHitLimit (execBatch cfg count transcript calls) = true →
      batchCount (execBatch cfg count transcript calls) = cfg.maxIterations ∧
      cfg.maxIterations ≤ count + calls.length) := by
  rcases execBatch_counts cfg calls count transcript h with
    ⟨tr2, heq, hlt⟩ | ⟨tr2, heq, hge⟩
  · rw [heq]
    exact ⟨fun _ => ⟨rfl, hlt⟩, fun hb => by simp [batchHitLimit] at hb⟩
  · rw [heq]
    exact ⟨fun hb => by simp [batchHitLimit] at hb, fun _ => ⟨rfl, hge⟩⟩

/-- C2 witness: a single reasoning turn requesting three calls raises the
counter from 0 to 3, and a single turn requesting twenty-five calls cannot
bypass the cap — it aborts at exactly 20. -/
theorem per_invocation_increment_witness :
    ((batchHitLimit (execBatch cfgGreedy 0 [] callsBatch) = false →
        batchCount (execBatch cfgGreedy 0 [] callsBatch) = 0 + callsBatch.length ∧
        0 + callsBatch.length < cfgGreedy.maxIterations) ∧
      (batchHitLimit (execBatch cfgGreedy 0 [] callsBatch) = true →
        batchCount (execBatch cfgGreedy 0 [] callsBatch) = cfgGreedy.maxIterations ∧
        cfgGreedy.maxIterations ≤ 0 + callsBatch.length)) ∧
    (batchHitLimit (execBatch cfgGreedy 0 [] bigBatch) = true ∧
      batchCount (execBatch cfgGreedy 0 [] bigBatch) = 20) :=
  ⟨per_invocation_increment cfgGreedy 0 [] callsBatch (by decide), by decide⟩

/-- C3 counterexample: for the descriptor `GET /customers/\x7bid\x7d` and an
argument map lacking `id`, the generated handler raises no `ArgumentError` and
does issue a network call — one request is sent with the unsubstituted
placeholder left in the URL — contradicting the claim that no network call is
issued. -/
theorem missing_path_param_counterexample :
    (tool_handler "http://api" getCustomerMapping [] respond200).1 =
      [{ method := "GET", url := "http://api/customers/\x7bid\x7d",
         queryParams := some [], jsonBody := none }] ∧
    ¬ (tool_handler "http://api" getCustomerMapping [] respond200).1 = [] := by
  constructor <;> decide

/-- C3 amended: for every descriptor whose path contains a placeholder
`\x7bp\x7d` and every argument map lacking key `p`, the generated handler does
not fail: for the supported methods it still issues exactly one request, with
the placeholder left unsubstituted in the URL. -/
theorem missing_path_param_amended (baseUrl : String) (mapping : EndpointMapping)
    (args : List (String × PyVal)) (respond : HttpRequest → HttpResponse) (p : String)
    (hsupported : expectedRequestCount mapping.method = 1)
    (hplaceholder : strContains mapping.path ("\x7b" ++ p ++ "\x7d") = true)
    (hmissing : args.all (fun kv => !(kv.1 == p)) = true) :
    (tool_handler baseUrl mapping args respond).1.length = 1 := by
  rw [tool_handler_requestCount]
  exact hsupported

/-- C3 amended witness: instantiated at `GET /customers/\x7bid\x7d` with an
empty argument map. -/
theorem missing_path_param_amended_witness :
    (tool_handler "http://api" getCustomerMapping [] respond200).1.length = 1 :=
  missing_path_param_amended "http://api" getCustomerMapping [] respond200 "id"
    (by decide) (by decide) (by decide)

/-- C4 counterexample: the spec scenario — invoking `getCustomer`
(`GET /customers/\x7bid\x7d`) with `id = "123"` must request `/customers/123`
with no query string. The generated handler substitutes the path but passes the
full argument map as query parameters, so the consumed key `id` also appears in
the query string, contradicting the claim. -/
theorem method_dispatch_counterexample :
    (tool_handler "http://api" getCustomerMapping [("id", PyVal.str "123")] respond200).1 =
      [{ method := "GET", url := "http://api/customers/123",
         queryParams := some [("id", PyVal.str "123")], jsonBody := none }] ∧
    ([("id", PyVal.str "123")] : List (String × PyVal)) ≠ [] := by
  constructor <;> decide

/-- C4 amended: GET sends the full argument map (including path-consumed keys)
as query parameters and no body; POST and PUT send the full argument map as a
JSON body and no query parameters; DELETE sends neither query parameters nor a
body; PATCH (or any other method) issues no request at all and returns an
unsupported-method message. -/
theorem method_dispatch_amended (baseUrl : String) (mapping : EndpointMapping)
    (args : List (String × PyVal)) (respond : HttpRequest → HttpResponse) :
    (strToUpper mapping.method = "GET" →
      (tool_handler baseUrl mapping args respond).1 =
        [{ method := "GET", url := baseUrl ++ substPath mapping.path args,
           queryParams := some args, jsonBody := none }]) ∧
    (strToUpper mapping.method = "POST" →
      (tool_handler baseUrl mapping args respond).1 =
        [{ method := "POST", url := baseUrl ++ substPath mapping.path args,
           queryParams := none, jsonBody := some args }]) ∧
    (strToUpper mapping.method = "PUT" →
      (tool_handler baseUrl mapping args respond).1 =
        [{ method := "PUT", url := baseUrl ++ substPath mapping.path args,
           queryParams := none, jsonBody := some args }]) ∧
    (strToUpper mapping.method = "DELETE" →
      (tool_handler baseUrl mapping args respond).1 =
        [{ method := "DELETE", url := baseUrl ++ substPath mapping.path args,
           queryParams := none, jsonBody := none }]) ∧
    (strToUpper mapping.method ≠ "GET" ∧ strToUpper mapping.method ≠ "POST" ∧
        strToUpper mapping.method ≠ "PUT" ∧ strToUpper mapping.method ≠ "DELETE" →
      (tool_handler baseUrl mapping args respond).1 = [] ∧
      (tool_handler baseUrl mapping args respond).2 =
        "Unsupported method: " ++ strToUpper mapping.method) := by
  refine ⟨?_, ?_, ?_, ?_, ?_⟩
  · intro h
    simp [tool_handler, handlerStep, h]
  · intro h
    simp [tool_handler, handlerStep, h]
  · intro h
    simp [tool_handler, handlerStep, h]
  · intro h
    simp [tool_handler, handlerStep, h]
  · intro h
    refine ⟨?_, ?_⟩ <;> simp [tool_handler, h.1, h.2.1, h.2.2.1, h.2.2.2]

/-- C4 amended witness: the GET branch instantiated at the `getCustomer`
scenario. -/
theorem method_dispatch_amended_witness :
    (tool_handler "http://api" getCustomerMapping [("id", PyVal.str "123")] respond200).1 =
      [{ method := "GET",
         url := "http://api" ++ substPath getCustomerMapping.path [("id", PyVal.str "123")],
         queryParams := some [("id", PyVal.str "123")], jsonBody := none }] :=
  (method_dispatch_amended "http://api" getCustomerMapping
    [("id", PyVal.str "123")] respond200).1 (by decide)

/-- C5 counterexample: a configuration with two tools both named `getUser`
does not fail anywhere — `generate_tools` emits both duplicates without a
uniqueness check (there is no `ConfigurationError` path), and at call time the
name is served, not rejected: the matching branch of `call_tool` invokes the
`getUser_handler` binding, which the second duplicate definition has shadowed,
so the LAST duplicate handles the call. -/
theorem duplicate_names_counterexample :
    ((generate_tools [getUserEndpointA, getUserEndpointB] "crm" "http://api").tools.map
      (fun t => t.name)) = ["getUser", "getUser"] ∧
    (match call_tool
        (generate_tools [getUserEndpointA, getUserEndpointB] "crm" "http://api").tools
        "getUser" with
      | Except.ok t => t.description
      | Except.error e => e) = "second getUser tool" := by
  constructor <;> decide

/-- C5 amended: duplicate tool names are not rejected at any stage:
`generate_tools` converts every endpoint with no uniqueness check (one tool per
endpoint, duplicates included, and no `ConfigurationError` path exists), and at
call time the duplicated name is served rather than rejected — the dispatch
executes whichever tool is bound to the name by the last generated handler
definition, so appending a further duplicate makes it the one that serves the
call. -/
theorem duplicate_names_amended :
    (∀ (endpoints : List Endpoint) (apiName baseUrl : String),
      ((generate_tools endpoints apiName baseUrl).tools).length = endpoints.length) ∧
    (∀ (ts : List MCPTool) (t : MCPTool) (name : String),
      t.name = name → call_tool (ts ++ [t]) name = Except.ok t) := by
  constructor
  · intro endpoints apiName baseUrl
    simp [generate_tools]
  · intro ts t name h
    have hb : handlerBinding (ts ++ [t]) name = some t := by
      unfold handlerBinding
      rw [List.foldl_append]
      simp [h]
    unfold call_tool
    rw [hb]

/-- C5 amended witness: of two duplicate `getUser` tools, the last one serves
the dispatch. -/
theorem duplicate_names_amended_witness :
    call_tool ([endpoint_to_tool getUserEndpointA] ++ [endpoint_to_tool getUserEndpointB])
        "getUser" =
      Except.ok (endpoint_to_tool getUserEndpointB) :=
  (duplicate_names_amended).2 [endpoint_to_tool getUserEndpointA]
    (endpoint_to_tool getUserEndpointB) "getUser" (by decide)

/-- C6: an unknown tool name requested by the reasoning model is answered with
an error tool-result turn and the run is not aborted — the batch continues with
the counter advanced — and in the spec scenario (stub requesting the
nonexistent `fooBar`, then the valid `getCustomer`, then answering) the run
terminates `DONE` with both the error result and the subsequent successful
result in the transcript. -/
theorem unknown_tool_resilience :
    (∀ (cfg : EngineConfig) (count : Nat) (transcript : List Turn) (call : ToolCall)
        (rest : List ToolCall),
      count + 1 < cfg.maxIterations →
      call_tool cfg.registry call.name = Except.error ("Unknown tool: " ++ call.name) →
      execBatch cfg count transcript (call :: rest) =
        execBatch cfg (count + 1)
          (transcript ++ [Turn.assistantToolUse call,
            Turn.toolResult call.id ("Error: " ++ ("Unknown tool: " ++ call.name)) true])
          rest) ∧
    runHas (runOrchestration cfgUnknownStub 5)
      (fun r => decide (r.terminal = Terminal.done "customer retrieved") &&
        decide (Turn.toolResult "call_1" "Error: Unknown tool: fooBar" true ∈ r.transcript) &&
        decide (Turn.toolResult "call_2" "Status: 200\n\nok" false ∈ r.transcript) &&
        decide (r.iteration_count = 2)) = true := by
  constructor
  · intro cfg count transcript call rest hc hl
    rw [show execBatch cfg count transcript (call :: rest) =
        (if cfg.maxIterations ≤ count + 1 then
          BatchOutcome.limitHit (count + 1) transcript
        else execBatch cfg (count + 1)
          (transcript ++ [Turn.assistantToolUse call, execToolCall cfg call]) rest)
      from rfl, if_neg (by omega)]
    simp only [execToolCall, hl]
  · decide

/-- C6 witness: the general continuation property instantiated at the
`fooBar` call of the scenario configuration. -/
theorem unknown_tool_resilience_witness :
    execBatch cfgUnknownStub 0 []
      [{ id := "call_1", name := "fooBar", arguments := [] }] =
    execBatch cfgUnknownStub 1
      ([] ++ [Turn.assistantToolUse { id := "call_1", name := "fooBar", arguments := [] },
        Turn.toolResult "call_1" ("Error: " ++ ("Unknown tool: " ++ "fooBar")) true]) [] :=
  (unknown_tool_resilience).1 cfgUnknownStub 0 []
    { id := "call_1", name := "fooBar", arguments := [] } [] (by decide) (by rfl)

/-- C7: a non-success HTTP status is returned by the handler as a normal
`Status + body` text (never thrown) for every supported method; an
orchestration run whose reasoning model never fails can never terminate in
`FAILED`, whatever the downstream transport answers; and in the spec scenario
a tool call answered with HTTP 500 leaves the run continuing to `REASONING`
and terminating `DONE`, with the error captured in the transcript. -/
theorem downstream_error_resilience :
    (∀ (baseUrl : String) (mapping : EndpointMapping) (args : List (String × PyVal))
        (status : Nat) (body : String),
      expectedRequestCount mapping.method = 1 →
      (tool_handler baseUrl mapping args
          (fun _ => { status_code := status, text := body })).2 =
        "Status: " ++ toString status ++ "\n\n" ++ body) ∧
    (∀ (cfg : EngineConfig),
      (∀ (transcript : List Turn) (msg : String),
          cfg.model transcript ≠ ModelResponse.serviceError msg) →
      ∀ (fuel : Nat) (r : RunResult), runOrchestration cfg fuel = some r →
        ∀ msg, r.terminal ≠ Terminal.failed msg) ∧
    runHas (runOrchestration cfg500 3)
      (fun r =>
        decide (r.terminal = Terminal.done "the downstream call failed with status 500") &&
        decide (Turn.toolResult "call_1" "Status: 500\n\nInternal Server Error" false
          ∈ r.transcript)) = true := by
  refine ⟨?_, ?_, ?_⟩
  · intro baseUrl mapping args status body h
    exact tool_handler_statusText baseUrl mapping args status body h
  · intro cfg hmodel fuel r hr msg
    exact runLoop_no_failed cfg hmodel fuel 0 (initTranscript cfg) r hr msg
  · decide

/-- C7 witness: the status-text conjunct instantiated at a 500 response. -/
theorem downstream_error_resilience_witness :
    (tool_handler "http://api" getCustomerMapping [("id", PyVal.str "42")]
        (fun _ => { status_code := 500, text := "Internal Server Error" })).2 =
      "Status: " ++ toString 500 ++ "\n\n" ++ "Internal Server Error" :=
  (downstream_error_resilience).1 "http://api" getCustomerMapping
    [("id", PyVal.str "42")] 500 "Internal Server Error" (by decide)

/-- C8 counterexample: for a PATCH descriptor the generated handler issues no
outbound request at all — it returns an unsupported-method message —
contradicting the claim that exactly one request is issued for every method
among GET, POST, PUT, DELETE, PATCH. -/
theorem single_request_counterexample :
    (tool_handler "http://api" patchMapping [("id", PyVal.str "1")] respond200).1 = [] ∧
    (tool_handler "http://api" patchMapping [("id", PyVal.str "1")] respond200).2 =
      "Unsupported method: PATCH" := by
  constructor <;> decide

/-- C8 amended: the generated handler issues exactly one outbound request (no
retries) for GET, POST, PUT and DELETE, and zero requests for any other
method, PATCH included. -/
theorem single_request_amended (baseUrl : String) (mapping : EndpointMapping)
    (args : List (String × PyVal)) (respond : HttpRequest → HttpResponse) :
    (tool_handler baseUrl mapping args respond).1.length =
      expectedRequestCount mapping.method :=
  tool_handler_requestCount baseUrl mapping args respond

/-- C9 counterexample: the argument map `\x7b\x7d` fails the required-field
check of `getCustomer` (`id` required), yet the generated handler issues the
HTTP request anyway — no `ArgumentError`, no validation. -/
theorem no_argument_validation_counterexample :
    validate_arguments (schemaRequired getCustomerTool.input_schema) [] = false ∧
    (tool_handler "http://api" getCustomerTool.endpoint_mapping [] respond200).1.length
      = 1 := by
  constructor <;> decide

/-- C9 amended: the generated handler performs no argument validation: for
every tool with a supported method and every argument map, even one failing
the required-field presence check of the tool input schema, the request is
issued regardless (the `_validate_arguments` helper exists only as an optional
customization in the documentation). -/
theorem no_argument_validation_amended (baseUrl : String) (tool : MCPTool)
    (args : List (String × PyVal)) (respond : HttpRequest → HttpResponse)
    (hsupported : expectedRequestCount tool.endpoint_mapping.method = 1)
    (hinvalid : validate_arguments (schemaRequired tool.input_schema) args = false) :
    (tool_handler baseUrl tool.endpoint_mapping args respond).1.length = 1 := by
  rw [tool_handler_requestCount]
  exact hsupported

/-- C9 amended witness: instantiated at `getCustomer` with an empty argument
map missing the required `id`. -/
theorem no_argument_validation_amended_witness :
    (tool_handler "http://api" getCustomerTool.endpoint_mapping []
      respond200).1.length = 1 :=
  no_argument_validation_amended "http://api" getCustomerTool [] respond200
    (by decide) (by decide)

/-- C10: for endpoints lacking an operation id the generated tool name is the
HTTP method value joined with only the first path segment; any two paths whose
first segments agree are assigned equal names for the same method; and
`generate_tools` performs no uniqueness check, so `GET /products` and
`GET /products/\x7bid\x7d` both become `get_products`, leaving duplicate names
in the resulting tool model. -/
theorem first_segment_naming :
    (∀ e : Endpoint, e.operation_id = none →
      (endpoint_to_tool e).name = e.method.value ++ "_" ++ toolFirstSegment e.path) ∧
    (∀ (p1 p2 : String) (m : HTTPMethod), toolFirstSegment p1 = toolFirstSegment p2 →
      path_to_tool_name p1 m = path_to_tool_name p2 m) ∧
    ((generate_tools [productsEndpoint, productByIdEndpoint] "shop" "http://api").tools.map
      (fun t => t.name)) = ["get_products", "get_products"] := by
  refine ⟨?_, ?_, ?_⟩
  · intro e he
    have hname : (endpoint_to_tool e).name =
        orTruthy e.operation_id (path_to_tool_name e.path e.method) := rfl
    rw [hname, he]
    exact path_to_tool_name_eq e.path e.method
  · intro p1 p2 m h
    rw [path_to_tool_name_eq, path_to_tool_name_eq, h]
  · decide

/-- C10 witness: the first-segment collision instantiated at `/products` and
`/products/\x7bid\x7d`. -/
theorem first_segment_naming_witness :
    path_to_tool_name "/products" HTTPMethod.get =
      path_to_tool_name "/products/\x7bid\x7d" HTTPMethod.get :=
  (first_segment_naming).2.1 "/products" "/products/\x7bid\x7d" HTTPMethod.get (by decide)

end OpenApiToMcp
